import Mathlib

/-!
Verification of the authentication gateway in `services/auth/app.py`
(TiberAICommunity/xpu_tgi).

The service keeps three module-level dictionaries keyed by client IP:
`failed_attempts` (a `defaultdict(int)`), `ban_timestamps` and
`last_attempt_timestamps` (plain dicts).  We model a Python dict as a
function `String → Option α`; a `defaultdict(int)` read is `getD 0`.
Timestamps are integers; Python `del` on a plain dict raises `KeyError`
when the key is absent, which we model with `Except`.

Python strings manipulated character-wise (the `Authorization` header,
the token, the shared secret) are modelled as `List Char`, so that
`str.split(sep)` and `str.startswith` become structurally recursive
functions amenable to induction.
-/

namespace XpuTgi

/-- A Python dict with string keys, modelled as a total function to `Option`. -/
abbrev Dict (α : Type) := String → Option α

/-- `d[k] = v` -/
def Dict.set (d : Dict α) (k : String) (v : α) : Dict α :=
  fun x => if x = k then some v else d x

/-- `del d[k]` when the key is known present; on a missing key the caller
models the `KeyError` separately. -/
def Dict.erase (d : Dict α) (k : String) : Dict α :=
  fun x => if x = k then none else d x

@[simp] theorem Dict.set_same (d : Dict α) (k : String) (v : α) :
    Dict.set d k v k = some v := by
  simp [Dict.set]

@[simp] theorem Dict.set_ne (d : Dict α) (k x : String) (v : α) (h : x ≠ k) :
    Dict.set d k v x = d x := by
  simp [Dict.set, h]

@[simp] theorem Dict.erase_same (d : Dict α) (k : String) :
    Dict.erase d k k = none := by
  simp [Dict.erase]

@[simp] theorem Dict.erase_ne (d : Dict α) (k x : String) (h : x ≠ k) :
    Dict.erase d k x = d x := by
  simp [Dict.erase, h]

/-- The module-level mutable state of `services/auth/app.py`:
`failed_attempts`, `ban_timestamps`, `last_attempt_timestamps`. -/
structure AuthState where
  failed_attempts : Dict Nat
  ban_timestamps : Dict Int
  last_attempt_timestamps : Dict Int

/-- The empty state at process start (all three dicts empty). -/
def initState : AuthState :=
  { failed_attempts := fun _ => none
    ban_timestamps := fun _ => none
    last_attempt_timestamps := fun _ => none }

/-- `MAX_FAILED_ATTEMPTS = 5` -/
def MAX_FAILED_ATTEMPTS : Nat := 5

/-- `BAN_DURATION = 300` -/
def BAN_DURATION : Int := 300

/-- `FAILED_ATTEMPT_RESET = 1800` -/
def FAILED_ATTEMPT_RESET : Int := 1800

/-- The failure count a read of `failed_attempts[ip]` observes:
`failed_attempts` is a `defaultdict(int)`, so a missing key reads as 0. -/
def getCount (s : AuthState) (ip : String) : Nat :=
  (s.failed_attempts ip).getD 0

/-- `is_ip_banned(ip)` at clock value `now`.  Returns the boolean result
and the (possibly mutated) state; `del failed_attempts[ip]` on a missing
key is a Python `KeyError`, modelled as `Except.error`. -/
def is_ip_banned (s : AuthState) (ip : String) (now : Int) :
    Except String (Bool × AuthState) :=
  match s.ban_timestamps ip with
  | some bannedAt =>
    if now - bannedAt > BAN_DURATION then
      match s.failed_attempts ip with
      | some _ =>
        Except.ok (false,
          { s with ban_timestamps := Dict.erase s.ban_timestamps ip
                   failed_attempts := Dict.erase s.failed_attempts ip })
      | none => Except.error "KeyError"
    else
      Except.ok (true, s)
  | none => Except.ok (false, s)

/-- `update_failed_attempts(ip)` at clock value `current_time`. -/
def update_failed_attempts (s : AuthState) (ip : String) (current_time : Int) :
    AuthState :=
  let s1 :=
    match s.last_attempt_timestamps ip with
    | some last =>
      if current_time - last > FAILED_ATTEMPT_RESET then
        { s with failed_attempts := Dict.set s.failed_attempts ip 0 }
      else s
    | none => s
  let newCount := (s1.failed_attempts ip).getD 0 + 1
  let s2 := { s1 with
    failed_attempts := Dict.set s1.failed_attempts ip newCount
    last_attempt_timestamps := Dict.set s1.last_attempt_timestamps ip current_time }
  if MAX_FAILED_ATTEMPTS ≤ newCount then
    { s2 with ban_timestamps := Dict.set s2.ban_timestamps ip current_time }
  else s2

/-- `reset_failed_attempts(ip)`: guarded deletes of `failed_attempts[ip]`
and `last_attempt_timestamps[ip]`; `ban_timestamps` is not touched. -/
def reset_failed_attempts (s : AuthState) (ip : String) : AuthState :=
  let s1 :=
    if (s.failed_attempts ip).isSome then
      { s with failed_attempts := Dict.erase s.failed_attempts ip }
    else s
  if (s1.last_attempt_timestamps ip).isSome then
    { s1 with last_attempt_timestamps := Dict.erase s1.last_attempt_timestamps ip }
  else s1

/-- A Python `str` manipulated character-wise. -/
abbrev PyStr := List Char

/-- Python `s.split(sep)` with an explicit one-character separator:
splits at every occurrence of `sep`, keeping empty segments
(`"".split(" ") == [""]`, `"a  b".split(" ") == ["a", "", "b"]`). -/
def pySplit (sep : Char) : PyStr → List PyStr
  | [] => [[]]
  | c :: cs =>
    if c = sep then [] :: pySplit sep cs
    else
      match pySplit sep cs with
      | [] => [[c]]
      | t :: ts => (c :: t) :: ts

/-- Python `==` on strings of the token check `token != VALID_TOKEN`:
a left-to-right scan that stops at the first differing character. -/
def pyStrEq : PyStr → PyStr → Bool
  | [], [] => true
  | a :: as_, b :: bs => if a = b then pyStrEq as_ bs else false
  | _, _ => false

/-- Number of character comparisons the scan of `pyStrEq` performs before
it stops: the cost model of the short-circuiting comparison at the token
check.  A comparison is constant-time only if this does not depend on
where the two strings first differ. -/
def pyStrEqSteps : PyStr → PyStr → Nat
  | a :: as_, b :: bs => if a = b then 1 + pyStrEqSteps as_ bs else 1
  | _, _ => 0

/-- An HTTP response of the service: status code and the `detail` field
of the JSON body. -/
structure Response where
  status : Nat
  detail : String
deriving DecidableEq

/-- 403 sent by `ban_middleware` for a banned client. -/
def bannedResponse : Response :=
  { status := 403, detail := "Too many failed attempts. Please try again later." }

/-- 401 sent when `not authorization` (header absent or empty). -/
def noAuthResponse : Response :=
  { status := 401, detail := "No authorization provided" }

/-- 401 sent when the header does not start with `Bearer `. -/
def badFormatResponse : Response :=
  { status := 401, detail := "Invalid authorization format" }

/-- 401 sent when the presented token differs from `VALID_TOKEN`. -/
def invalidTokenResponse : Response :=
  { status := 401, detail := "Invalid token" }

/-- 200 sent on a valid token. -/
def validResponse : Response :=
  { status := 200, detail := "Token is valid" }

/-- 500 produced by the `except` clause of `validate_token` (reached if
`authorization.split(" ")[1]` raised an `IndexError`). -/
def serverErrorResponse : Response :=
  { status := 500, detail := "Internal server error" }

/-- The `/validate` endpoint body (after the ban middleware):
`valid_token` is the `VALID_TOKEN` shared secret, `authorization` the
optional header value.  `if not authorization` treats both a missing
header and the empty string as absent. -/
def validate_token (valid_token : PyStr) (s : AuthState) (client_ip : String)
    (authorization : Option PyStr) (now : Int) : Response × AuthState :=
  match authorization with
  | none => (noAuthResponse, s)
  | some auth =>
    if auth = [] then (noAuthResponse, s)
    else if "Bearer ".toList.isPrefixOf auth = false then
      (badFormatResponse, update_failed_attempts s client_ip now)
    else
      match (pySplit ' ' auth).get? 1 with
      | none => (serverErrorResponse, s)
      | some token =>
        if pyStrEq token valid_token = false then
          (invalidTokenResponse, update_failed_attempts s client_ip now)
        else
          (validResponse, reset_failed_attempts s client_ip)

/-- One full request: `ban_middleware` first (consulting and possibly
mutating ban state), then `validate_token` when not banned. -/
def handle_request (valid_token : PyStr) (s : AuthState) (client_ip : String)
    (authorization : Option PyStr) (now : Int) :
    Except String (Response × AuthState) :=
  match is_ip_banned s client_ip now with
  | Except.error e => Except.error e
  | Except.ok (banned, s1) =>
    if banned then Except.ok (bannedResponse, s1)
    else Except.ok (validate_token valid_token s1 client_ip authorization now)

/-- The three BanTracker operations (IsBanned / RecordFailure /
RecordSuccess), as a step alphabet for reachability. -/
inductive Op where
  | checkBan (ip : String) (t : Int)
  | failure (ip : String) (t : Int)
  | success (ip : String)

/-- Apply one operation to the state (the boolean result of `IsBanned`
is discarded; its state mutation is kept). -/
def applyOp (s : AuthState) : Op → Except String AuthState
  | Op.checkBan ip t => (is_ip_banned s ip t).map Prod.snd
  | Op.failure ip t => Except.ok (update_failed_attempts s ip t)
  | Op.success ip => Except.ok (reset_failed_attempts s ip)

/-- Run a sequence of operations from a state. -/
def runOps (s : AuthState) : List Op → Except String AuthState
  | [] => Except.ok s
  | op :: ops =>
    match applyOp s op with
    | Except.error e => Except.error e
    | Except.ok s1 => runOps s1 ops

/-! ### Characterization lemmas for the three operations -/

/-- Whether `update_failed_attempts` discards the stale count first. -/
def staleReset (s : AuthState) (ip : String) (t : Int) : Bool :=
  match s.last_attempt_timestamps ip with
  | some last => decide (t - last > FAILED_ATTEMPT_RESET)
  | none => false

theorem upd_count_eq (s : AuthState) (ip : String) (t : Int) :
    getCount (update_failed_attempts s ip t) ip
      = (if staleReset s ip t then 0 else getCount s ip) + 1 := by
  simp only [update_failed_attempts, staleReset, getCount]
  cases h : s.last_attempt_timestamps ip <;>
    simp only [h, decide_eq_true_eq] <;>
    split_ifs <;>
    simp_all [Dict.set_same]

theorem upd_last_eq (s : AuthState) (ip : String) (t : Int) :
    (update_failed_attempts s ip t).last_attempt_timestamps ip = some t := by
  simp only [update_failed_attempts]
  cases h : s.last_attempt_timestamps ip <;>
    simp only [h] <;>
    split_ifs <;>
    simp [Dict.set_same]

theorem upd_ban_eq (s : AuthState) (ip : String) (t : Int) :
    (update_failed_attempts s ip t).ban_timestamps ip
      = if MAX_FAILED_ATTEMPTS ≤ getCount (update_failed_attempts s ip t) ip
        then some t else s.ban_timestamps ip := by
  simp only [update_failed_attempts, getCount]
  cases h : s.last_attempt_timestamps ip <;>
    simp only [h] <;>
    split_ifs <;>
    simp_all [Dict.set_same] <;>
    omega

theorem upd_ban_map_of_lt (s : AuthState) (ip : String) (t : Int)
    (h : getCount (update_failed_attempts s ip t) ip < MAX_FAILED_ATTEMPTS) :
    (update_failed_attempts s ip t).ban_timestamps = s.ban_timestamps := by
  simp only [update_failed_attempts, getCount] at h ⊢
  cases hl : s.last_attempt_timestamps ip <;>
    simp only [hl] at h ⊢ <;>
    split_ifs at h ⊢ <;>
    simp_all [Dict.set_same] <;>
    omega

theorem is_ip_banned_of_none (s : AuthState) (ip : String) (now : Int)
    (h : s.ban_timestamps ip = none) :
    is_ip_banned s ip now = Except.ok (false, s) := by
  unfold is_ip_banned
  rw [h]

theorem is_ip_banned_active (s : AuthState) (ip : String) (now b : Int)
    (h : s.ban_timestamps ip = some b) (hle : now - b ≤ BAN_DURATION) :
    is_ip_banned s ip now = Except.ok (true, s) := by
  simp only [is_ip_banned, h]
  rw [if_neg (not_lt.mpr hle)]

theorem is_ip_banned_expired (s : AuthState) (ip : String) (now b : Int)
    (h : s.ban_timestamps ip = some b) (hgt : now - b > BAN_DURATION)
    (hc : (s.failed_attempts ip).isSome) :
    is_ip_banned s ip now = Except.ok (false,
      { s with ban_timestamps := Dict.erase s.ban_timestamps ip
               failed_attempts := Dict.erase s.failed_attempts ip }) := by
  simp only [is_ip_banned, h]
  rw [if_pos hgt]
  cases hf : s.failed_attempts ip
  · rw [hf] at hc
    simp at hc
  · simp only [hf]

theorem reset_count_eq (s : AuthState) (ip : String) :
    getCount (reset_failed_attempts s ip) ip = 0 := by
  simp only [reset_failed_attempts, getCount]
  split_ifs <;> simp_all [Dict.erase_same]

theorem reset_last_eq (s : AuthState) (ip : String) :
    (reset_failed_attempts s ip).last_attempt_timestamps ip = none := by
  simp only [reset_failed_attempts]
  split_ifs <;> simp_all [Dict.erase_same]

theorem reset_ban_eq (s : AuthState) (ip : String) :
    (reset_failed_attempts s ip).ban_timestamps = s.ban_timestamps := by
  simp only [reset_failed_attempts]
  split_ifs <;> rfl

/-! ### Lemmas about the Python string operations -/

theorem pySplit_ne_nil (sep : Char) (s : PyStr) : pySplit sep s ≠ [] := by
  induction s with
  | nil => simp [pySplit]
  | cons c cs ih =>
    simp only [pySplit]
    split
    · simp
    · split
      · simp
      · simp

theorem pySplit_no_sep (sep : Char) (xs : PyStr) (h : sep ∉ xs) :
    pySplit sep xs = [xs] := by
  induction xs with
  | nil => rfl
  | cons c cs ih =>
    simp only [List.mem_cons, not_or] at h
    simp only [pySplit]
    rw [if_neg (fun hc => h.1 hc.symm)]
    rw [ih h.2]

theorem pySplit_append (sep : Char) (xs ys : PyStr) (h : sep ∉ xs) :
    pySplit sep (xs ++ sep :: ys) = xs :: pySplit sep ys := by
  induction xs with
  | nil => simp [pySplit]
  | cons c cs ih =>
    simp only [List.mem_cons, not_or] at h
    simp only [List.cons_append, pySplit]
    rw [if_neg (fun hc => h.1 hc.symm)]
    rw [List.append_eq, ih h.2]

theorem isPrefixOf_exists {p l : PyStr} (h : p.isPrefixOf l = true) :
    ∃ t, l = p ++ t := by
  induction p generalizing l with
  | nil => exact ⟨l, rfl⟩
  | cons a as_ ih =>
    cases l with
    | nil => simp [List.isPrefixOf] at h
    | cons b bs =>
      simp only [List.isPrefixOf, Bool.and_eq_true, beq_iff_eq] at h
      obtain ⟨t, ht⟩ := ih h.2
      exact ⟨t, by rw [h.1, List.cons_append, ht]⟩

theorem staleReset_eq_false (s : AuthState) (ip : String) (t l : Int)
    (h : s.last_attempt_timestamps ip = some l) (hle : t - l ≤ FAILED_ATTEMPT_RESET) :
    staleReset s ip t = false := by
  simp only [staleReset, h, decide_eq_false_iff_not, not_lt]
  exact hle

theorem staleReset_eq_true (s : AuthState) (ip : String) (t l : Int)
    (h : s.last_attempt_timestamps ip = some l) (hgt : t - l > FAILED_ATTEMPT_RESET) :
    staleReset s ip t = true := by
  simp only [staleReset, h, decide_eq_true_eq]
  exact hgt

theorem is_ip_banned_keyerror (s : AuthState) (ip : String) (now b : Int)
    (h : s.ban_timestamps ip = some b) (hgt : now - b > BAN_DURATION)
    (hf : s.failed_attempts ip = none) :
    is_ip_banned s ip now = Except.error "KeyError" := by
  simp only [is_ip_banned, h]
  rw [if_pos hgt, hf]

theorem isPrefixOf_self_append (p t : PyStr) : p.isPrefixOf (p ++ t) = true := by
  induction p with
  | nil => simp [List.isPrefixOf]
  | cons a as_ ih => simp [List.isPrefixOf, ih]

theorem pyStrEq_iff (a b : PyStr) : pyStrEq a b = true ↔ a = b := by
  induction a generalizing b with
  | nil => cases b <;> simp [pyStrEq]
  | cons x xs ih =>
    cases b with
    | nil => simp [pyStrEq]
    | cons y ys =>
      simp only [pyStrEq]
      split
      · simp_all
      · simp_all

/-! ### Concrete reachable states used by witnesses and counterexamples -/

/-- Record one failure per listed time, in order. -/
def failTimes (s : AuthState) (ip : String) : List Int → AuthState
  | [] => s
  | t :: ts => failTimes (update_failed_attempts s ip t) ip ts

/-- The state after five failed attempts of client `203.0.113.7` at time 0:
`failed_attempts` is 5, the client is banned at 0. -/
def sBanned : AuthState := failTimes initState "203.0.113.7" [0, 0, 0, 0, 0]

/-! ### Claims -/

/-- Claim C1: for every client and every sequence of 5 consecutive
`RecordFailure` calls, each within `FAILED_ATTEMPT_RESET` of the previous
one, `is_ip_banned` for that client immediately after the last failure
(at the same time value) returns true. -/
theorem five_consecutive_failures_ban (s : AuthState) (ip : String)
    (t1 t2 t3 t4 t5 : Int)
    (h12 : t2 - t1 ≤ FAILED_ATTEMPT_RESET) (h23 : t3 - t2 ≤ FAILED_ATTEMPT_RESET)
    (h34 : t4 - t3 ≤ FAILED_ATTEMPT_RESET) (h45 : t5 - t4 ≤ FAILED_ATTEMPT_RESET) :
    (is_ip_banned
      (update_failed_attempts (update_failed_attempts (update_failed_attempts
        (update_failed_attempts (update_failed_attempts s ip t1) ip t2) ip t3) ip t4) ip t5)
      ip t5).map Prod.fst = Except.ok true := by
  set u1 := update_failed_attempts s ip t1 with hu1
  set u2 := update_failed_attempts u1 ip t2 with hu2
  set u3 := update_failed_attempts u2 ip t3 with hu3
  set u4 := update_failed_attempts u3 ip t4 with hu4
  set u5 := update_failed_attempts u4 ip t5 with hu5
  have l1 : u1.last_attempt_timestamps ip = some t1 := upd_last_eq s ip t1
  have l2 : u2.last_attempt_timestamps ip = some t2 := upd_last_eq u1 ip t2
  have l3 : u3.last_attempt_timestamps ip = some t3 := upd_last_eq u2 ip t3
  have l4 : u4.last_attempt_timestamps ip = some t4 := upd_last_eq u3 ip t4
  have c1 : 1 ≤ getCount u1 ip := by
    rw [hu1, upd_count_eq]
    exact Nat.le_add_left 1 _
  have c2 : 2 ≤ getCount u2 ip := by
    rw [hu2, upd_count_eq, staleReset_eq_false u1 ip t2 t1 l1 h12]
    simpa using c1
  have c3 : 3 ≤ getCount u3 ip := by
    rw [hu3, upd_count_eq, staleReset_eq_false u2 ip t3 t2 l2 h23]
    simpa using c2
  have c4 : 4 ≤ getCount u4 ip := by
    rw [hu4, upd_count_eq, staleReset_eq_false u3 ip t4 t3 l3 h34]
    simpa using c3
  have c5 : 5 ≤ getCount u5 ip := by
    rw [hu5, upd_count_eq, staleReset_eq_false u4 ip t5 t4 l4 h45]
    simpa using c4
  have hban : u5.ban_timestamps ip = some t5 := by
    rw [hu5, upd_ban_eq, if_pos]
    rw [← hu5]
    exact c5
  rw [is_ip_banned_active u5 ip t5 t5 hban (by simp [BAN_DURATION])]
  rfl

/-- Witness for C1: five failures of `10.0.0.5` at times 0..4 leave the
client banned at time 4. -/
theorem five_consecutive_failures_ban_witness :
    (1 : Int) - 0 ≤ FAILED_ATTEMPT_RESET
    ∧ (is_ip_banned
        (update_failed_attempts (update_failed_attempts (update_failed_attempts
          (update_failed_attempts (update_failed_attempts initState "10.0.0.5" 0)
            "10.0.0.5" 1) "10.0.0.5" 2) "10.0.0.5" 3) "10.0.0.5" 4)
        "10.0.0.5" 4).map Prod.fst = Except.ok true :=
  ⟨by decide,
   five_consecutive_failures_ban initState "10.0.0.5" 0 1 2 3 4
     (by decide) (by decide) (by decide) (by decide)⟩

/-- Claim C2: `is_ip_banned(ip)` at time `now` returns false when no ban
record exists; when a complete record with `bannedAt = b` exists and
`now - b > BAN_DURATION` it deletes the ban and the failure count and
returns false (the failure count reads 0 immediately afterwards); and
when a ban record exists with `now - b ≤ BAN_DURATION` it returns true
without modifying any state. -/
theorem is_ip_banned_cases (s : AuthState) (ip : String) (now b : Int) :
    (s.ban_timestamps ip = none → is_ip_banned s ip now = Except.ok (false, s))
    ∧ (s.ban_timestamps ip = some b → now - b > BAN_DURATION →
        (s.failed_attempts ip).isSome →
        is_ip_banned s ip now = Except.ok (false,
          { s with ban_timestamps := Dict.erase s.ban_timestamps ip
                   failed_attempts := Dict.erase s.failed_attempts ip })
        ∧ getCount { s with ban_timestamps := Dict.erase s.ban_timestamps ip
                            failed_attempts := Dict.erase s.failed_attempts ip } ip = 0)
    ∧ (s.ban_timestamps ip = some b → now - b ≤ BAN_DURATION →
        is_ip_banned s ip now = Except.ok (true, s)) := by
  refine ⟨fun h => is_ip_banned_of_none s ip now h,
          fun h hgt hc => ⟨is_ip_banned_expired s ip now b h hgt hc, ?_⟩,
          fun h hle => is_ip_banned_active s ip now b h hle⟩
  simp [getCount, Dict.erase_same]

/-- Witness for C2: the three branches at concrete states: the empty
state, and the five-failures-at-0 state queried at times 301 and 300. -/
theorem is_ip_banned_cases_witness :
    (initState.ban_timestamps "203.0.113.7" = none
     ∧ is_ip_banned initState "203.0.113.7" 7 = Except.ok (false, initState))
    ∧ (sBanned.ban_timestamps "203.0.113.7" = some 0
       ∧ (sBanned.failed_attempts "203.0.113.7").isSome
       ∧ is_ip_banned sBanned "203.0.113.7" 301 = Except.ok (false,
           { sBanned with
               ban_timestamps := Dict.erase sBanned.ban_timestamps "203.0.113.7"
               failed_attempts := Dict.erase sBanned.failed_attempts "203.0.113.7" })
       ∧ getCount { sBanned with
               ban_timestamps := Dict.erase sBanned.ban_timestamps "203.0.113.7"
               failed_attempts := Dict.erase sBanned.failed_attempts "203.0.113.7" }
             "203.0.113.7" = 0)
    ∧ is_ip_banned sBanned "203.0.113.7" 300 = Except.ok (true, sBanned) :=
  ⟨⟨by decide, (is_ip_banned_cases initState "203.0.113.7" 7 0).1 (by decide)⟩,
   ⟨by decide, by decide,
    (is_ip_banned_cases sBanned "203.0.113.7" 301 0).2.1
      (by decide) (by decide) (by decide)⟩,
   (is_ip_banned_cases sBanned "203.0.113.7" 300 0).2.2 (by decide) (by decide)⟩

/-- Claim C5: when the client's most recent recorded failure is more than
`FAILED_ATTEMPT_RESET` before `now`, `update_failed_attempts` resets the
stale count before counting: the failure count equals exactly 1
afterwards, and the call imposes no ban (the ban table is untouched). -/
theorem stale_failure_resets_to_one (s : AuthState) (ip : String) (now l : Int)
    (hl : s.last_attempt_timestamps ip = some l)
    (hst : now - l > FAILED_ATTEMPT_RESET) :
    getCount (update_failed_attempts s ip now) ip = 1
    ∧ (update_failed_attempts s ip now).ban_timestamps = s.ban_timestamps := by
  have hc : getCount (update_failed_attempts s ip now) ip = 1 := by
    rw [upd_count_eq, staleReset_eq_true s ip now l hl hst]
    simp
  refine ⟨hc, upd_ban_map_of_lt s ip now ?_⟩
  rw [hc]
  decide

/-- Witness for C5: a failure of `10.0.0.5` at time 0 followed by a
failure at time 1801 leaves the count at exactly 1 and no ban, even
from the four-prior-failures state. -/
theorem stale_failure_resets_to_one_witness :
    (failTimes initState "10.0.0.5" [0, 0, 0, 0]).last_attempt_timestamps "10.0.0.5"
        = some 0
    ∧ (1801 : Int) - 0 > FAILED_ATTEMPT_RESET
    ∧ getCount (update_failed_attempts
        (failTimes initState "10.0.0.5" [0, 0, 0, 0]) "10.0.0.5" 1801) "10.0.0.5" = 1
    ∧ (update_failed_attempts (failTimes initState "10.0.0.5" [0, 0, 0, 0])
        "10.0.0.5" 1801).ban_timestamps
        = (failTimes initState "10.0.0.5" [0, 0, 0, 0]).ban_timestamps :=
  ⟨by decide, by decide,
   (stale_failure_resets_to_one (failTimes initState "10.0.0.5" [0, 0, 0, 0])
     "10.0.0.5" 1801 0 (by decide) (by decide)).1,
   (stale_failure_resets_to_one (failTimes initState "10.0.0.5" [0, 0, 0, 0])
     "10.0.0.5" 1801 0 (by decide) (by decide)).2⟩

/-- Counterexample to claim C3: `reset_failed_attempts` does not delete
`ban_timestamps`.  After five failures of `203.0.113.7` at time 0 and then
a `RecordSuccess`, the failure count reads 0 but the ban is still present
and `is_ip_banned` at time 0 still returns true — not false for every
`now` as the claim states. -/
theorem record_success_keeps_ban_counterexample :
    getCount (reset_failed_attempts sBanned "203.0.113.7") "203.0.113.7" = 0
    ∧ (reset_failed_attempts sBanned "203.0.113.7").ban_timestamps "203.0.113.7"
        = some 0
    ∧ (is_ip_banned (reset_failed_attempts sBanned "203.0.113.7") "203.0.113.7" 0).map
        Prod.fst = Except.ok true :=
  ⟨rfl, rfl, rfl⟩

/-- Amended C3: `reset_failed_attempts` deletes the failure count and the
last-failure timestamp but leaves the ban table untouched; immediately
afterwards the failure count is 0, `lastFailureAt` is cleared, and
`is_ip_banned` returns false for every `now` provided the client had no
ban record. -/
theorem record_success_clears_failures_not_ban (s : AuthState) (ip : String)
    (now : Int) :
    getCount (reset_failed_attempts s ip) ip = 0
    ∧ (reset_failed_attempts s ip).last_attempt_timestamps ip = none
    ∧ (reset_failed_attempts s ip).ban_timestamps = s.ban_timestamps
    ∧ (s.ban_timestamps ip = none →
        is_ip_banned (reset_failed_attempts s ip) ip now
          = Except.ok (false, reset_failed_attempts s ip)) := by
  refine ⟨reset_count_eq s ip, reset_last_eq s ip, reset_ban_eq s ip, fun h => ?_⟩
  refine is_ip_banned_of_none _ ip now ?_
  rw [reset_ban_eq]
  exact h

/-- Witness for amended C3: a client with three failures but no ban is
fully rehabilitated by `RecordSuccess`. -/
theorem record_success_clears_failures_not_ban_witness :
    getCount (reset_failed_attempts (failTimes initState "10.0.0.5" [0, 0, 0])
        "10.0.0.5") "10.0.0.5" = 0
    ∧ (reset_failed_attempts (failTimes initState "10.0.0.5" [0, 0, 0])
        "10.0.0.5").last_attempt_timestamps "10.0.0.5" = none
    ∧ (reset_failed_attempts (failTimes initState "10.0.0.5" [0, 0, 0])
        "10.0.0.5").ban_timestamps
        = (failTimes initState "10.0.0.5" [0, 0, 0]).ban_timestamps
    ∧ ((failTimes initState "10.0.0.5" [0, 0, 0]).ban_timestamps "10.0.0.5" = none →
        is_ip_banned (reset_failed_attempts (failTimes initState "10.0.0.5" [0, 0, 0])
            "10.0.0.5") "10.0.0.5" 99
          = Except.ok (false,
              reset_failed_attempts (failTimes initState "10.0.0.5" [0, 0, 0])
                "10.0.0.5")) :=
  record_success_clears_failures_not_ban
    (failTimes initState "10.0.0.5" [0, 0, 0]) "10.0.0.5" 99

/-- Counterexample to claim C4: a state reachable by the public
operations (five `RecordFailure` at time 0, then `IsBanned` at time 301,
whose lazy expiry fires) in which the failure count reads 0 yet
`lastFailureAt` is still `some 0` — the ban-expired client is not
identical to a client with no history. -/
theorem ban_expiry_retains_last_attempt_counterexample :
    (runOps initState
        [Op.failure "198.51.100.9" 0, Op.failure "198.51.100.9" 0,
         Op.failure "198.51.100.9" 0, Op.failure "198.51.100.9" 0,
         Op.failure "198.51.100.9" 0, Op.checkBan "198.51.100.9" 301]).map
      (fun s => (getCount s "198.51.100.9",
                 s.ban_timestamps "198.51.100.9",
                 s.last_attempt_timestamps "198.51.100.9"))
      = Except.ok (0, none, some 0) := rfl

/-- Amended C4: when `is_ip_banned` processes an expired ban it clears
the failure count and the ban but retains `last_attempt_timestamps`, so
the resulting record differs from a fresh client exactly in that field
(and `RecordSuccess` on a banned client retains `ban_timestamps`, so a
zero failure count does not imply an absent `bannedAt` either). -/
theorem ban_expiry_clears_count_and_ban_only (s : AuthState) (ip : String)
    (now b : Int) (h : s.ban_timestamps ip = some b)
    (hgt : now - b > BAN_DURATION) (hc : (s.failed_attempts ip).isSome) :
    (is_ip_banned s ip now).map
      (fun r => (r.1, getCount r.2 ip, r.2.ban_timestamps ip,
                 r.2.last_attempt_timestamps ip))
      = Except.ok (false, 0, none, s.last_attempt_timestamps ip) := by
  rw [is_ip_banned_expired s ip now b h hgt hc]
  simp [Except.map, getCount]

/-- Witness for amended C4: the five-failures-at-0 state queried at 301. -/
theorem ban_expiry_clears_count_and_ban_only_witness :
    sBanned.ban_timestamps "203.0.113.7" = some 0
    ∧ (301 : Int) - 0 > BAN_DURATION
    ∧ (is_ip_banned sBanned "203.0.113.7" 301).map
        (fun r => (r.1, getCount r.2 "203.0.113.7",
                   r.2.ban_timestamps "203.0.113.7",
                   r.2.last_attempt_timestamps "203.0.113.7"))
        = Except.ok (false, 0, none, sBanned.last_attempt_timestamps "203.0.113.7") :=
  ⟨by decide, by decide,
   ban_expiry_clears_count_and_ban_only sBanned "203.0.113.7" 301 0
     (by decide) (by decide) (by decide)⟩

/-- Counterexample to claim C9: a `RecordFailure` at time 10 for the
client banned at time 0 (count already at the threshold) overwrites
`bannedAt` with 10 — the ban state is not left unchanged. -/
theorem refail_while_banned_counterexample :
    sBanned.ban_timestamps "203.0.113.7" = some 0
    ∧ MAX_FAILED_ATTEMPTS
        ≤ getCount (update_failed_attempts sBanned "203.0.113.7" 10) "203.0.113.7"
    ∧ (update_failed_attempts sBanned "203.0.113.7" 10).ban_timestamps "203.0.113.7"
        = some 10
    ∧ (update_failed_attempts sBanned "203.0.113.7" 10).ban_timestamps "203.0.113.7"
        ≠ sBanned.ban_timestamps "203.0.113.7" := by
  decide

/-- Amended C9: for a client whose `bannedAt` is already set, a further
`RecordFailure` that finds the failure count at or above the threshold
sets `bannedAt` to the current time — refreshing the ban and moving its
expiry to `now + BAN_DURATION` — rather than leaving it unchanged; the
client does remain banned immediately afterwards. -/
theorem refail_while_banned_sets_ban_to_now (s : AuthState) (ip : String)
    (now b : Int) (_hban : s.ban_timestamps ip = some b)
    (hmax : MAX_FAILED_ATTEMPTS
        ≤ getCount (update_failed_attempts s ip now) ip) :
    (update_failed_attempts s ip now).ban_timestamps ip = some now
    ∧ (is_ip_banned (update_failed_attempts s ip now) ip now).map Prod.fst
        = Except.ok true := by
  have hb : (update_failed_attempts s ip now).ban_timestamps ip = some now := by
    rw [upd_ban_eq, if_pos hmax]
  refine ⟨hb, ?_⟩
  rw [is_ip_banned_active (update_failed_attempts s ip now) ip now now hb
    (by simp [BAN_DURATION])]
  rfl

/-- Witness for amended C9: the banned-at-0 client failing again at 10. -/
theorem refail_while_banned_sets_ban_to_now_witness :
    sBanned.ban_timestamps "203.0.113.7" = some 0
    ∧ MAX_FAILED_ATTEMPTS
        ≤ getCount (update_failed_attempts sBanned "203.0.113.7" 10) "203.0.113.7"
    ∧ (update_failed_attempts sBanned "203.0.113.7" 10).ban_timestamps "203.0.113.7"
        = some 10
    ∧ (is_ip_banned (update_failed_attempts sBanned "203.0.113.7" 10)
        "203.0.113.7" 10).map Prod.fst = Except.ok true :=
  ⟨by decide, by decide,
   (refail_while_banned_sets_ban_to_now sBanned "203.0.113.7" 10 0
     (by decide) (by decide)).1,
   (refail_while_banned_sets_ban_to_now sBanned "203.0.113.7" 10 0
     (by decide) (by decide)).2⟩

/-- Claim C6: for every request from a client for which `is_ip_banned`
returns true, `ban_middleware` responds 403 with the fixed message, the
state is unchanged (no `RecordFailure` or `RecordSuccess`), and the
result does not depend on the credential or on the secret: credential
parsing and the token comparison are never reached. -/
theorem banned_request_rejected_before_credentials
    (valid_token valid_token2 : PyStr) (s : AuthState) (ip : String)
    (authorization authorization2 : Option PyStr) (now : Int)
    (h : (is_ip_banned s ip now).map Prod.fst = Except.ok true) :
    handle_request valid_token s ip authorization now
      = Except.ok (bannedResponse, s)
    ∧ handle_request valid_token s ip authorization now
      = handle_request valid_token2 s ip authorization2 now := by
  have hb : ∃ b, s.ban_timestamps ip = some b ∧ now - b ≤ BAN_DURATION := by
    cases hb : s.ban_timestamps ip with
    | none =>
      rw [is_ip_banned_of_none s ip now hb] at h
      simp [Except.map] at h
    | some b =>
      by_cases hgt : BAN_DURATION < now - b
      · cases hf : s.failed_attempts ip with
        | none =>
          rw [is_ip_banned_keyerror s ip now b hb hgt hf] at h
          simp [Except.map] at h
        | some n =>
          rw [is_ip_banned_expired s ip now b hb hgt (by rw [hf]; rfl)] at h
          simp [Except.map] at h
      · exact ⟨b, rfl, not_lt.mp hgt⟩
  obtain ⟨b, hban, hle⟩ := hb
  have hres := is_ip_banned_active s ip now b hban hle
  constructor
  · unfold handle_request
    rw [hres]
    rfl
  · unfold handle_request
    rw [hres]
    rfl

/-- Witness for C6: the client banned at time 0, queried at time 10 with
two different credentials and two different secrets. -/
theorem banned_request_rejected_before_credentials_witness :
    (is_ip_banned sBanned "203.0.113.7" 10).map Prod.fst = Except.ok true
    ∧ handle_request "secret".toList sBanned "203.0.113.7"
        (some "Bearer secret".toList) 10 = Except.ok (bannedResponse, sBanned)
    ∧ handle_request "secret".toList sBanned "203.0.113.7"
        (some "Bearer secret".toList) 10
      = handle_request "other".toList sBanned "203.0.113.7" none 10 :=
  ⟨rfl,
   (banned_request_rejected_before_credentials "secret".toList "other".toList
     sBanned "203.0.113.7" (some "Bearer secret".toList) none 10 rfl).1,
   (banned_request_rejected_before_credentials "secret".toList "other".toList
     sBanned "203.0.113.7" (some "Bearer secret".toList) none 10 rfl).2⟩

/-- Counterexample to claim C7: a request with no credential from a
client whose ban has expired (a non-banned client: `is_ip_banned`
answers false) gets the 401 missing-credential response, yet the
BanTracker state is not unchanged — the lazy expiry inside the ban
middleware deletes the client's ban and failure count (5 becomes 0). -/
theorem missing_credential_cleanup_counterexample :
    (handle_request "secret".toList sBanned "203.0.113.7" none 301).map
      (fun r => (r.1, getCount r.2 "203.0.113.7",
                 r.2.ban_timestamps "203.0.113.7"))
      = Except.ok (noAuthResponse, 0, none)
    ∧ getCount sBanned "203.0.113.7" = 5
    ∧ sBanned.ban_timestamps "203.0.113.7" = some 0 :=
  ⟨rfl, rfl, rfl⟩

/-- Amended C7: for a request with no credential (header absent, or
present but empty) from a client with no ban record, the gate returns
the 401 missing-credential response and the state is exactly unchanged;
when the client instead carries an expired ban record, the only state
change is the ban middleware's expiry cleanup of that client. -/
theorem missing_credential_no_tracker_update (valid_token : PyStr)
    (s : AuthState) (ip : String) (now : Int)
    (h : s.ban_timestamps ip = none) :
    handle_request valid_token s ip none now = Except.ok (noAuthResponse, s)
    ∧ handle_request valid_token s ip (some []) now
        = Except.ok (noAuthResponse, s) := by
  have hb := is_ip_banned_of_none s ip now h
  constructor
  · unfold handle_request
    rw [hb]
    rfl
  · unfold handle_request
    rw [hb]
    rfl

/-- Witness for amended C7: a client with three failures but no ban,
with a missing and with an empty `Authorization` header. -/
theorem missing_credential_no_tracker_update_witness :
    (failTimes initState "10.0.0.5" [0, 0, 0]).ban_timestamps "10.0.0.5" = none
    ∧ handle_request "secret".toList (failTimes initState "10.0.0.5" [0, 0, 0])
        "10.0.0.5" none 3
        = Except.ok (noAuthResponse, failTimes initState "10.0.0.5" [0, 0, 0])
    ∧ handle_request "secret".toList (failTimes initState "10.0.0.5" [0, 0, 0])
        "10.0.0.5" (some []) 3
        = Except.ok (noAuthResponse, failTimes initState "10.0.0.5" [0, 0, 0]) :=
  ⟨by decide,
   (missing_credential_no_tracker_update "secret".toList
     (failTimes initState "10.0.0.5" [0, 0, 0]) "10.0.0.5" 3 (by decide)).1,
   (missing_credential_no_tracker_update "secret".toList
     (failTimes initState "10.0.0.5" [0, 0, 0]) "10.0.0.5" 3 (by decide)).2⟩

/-- Claim C8 (refuting): the token check `token != VALID_TOKEN` is
Python's default string comparison, modelled by `pyStrEq` with cost
`pyStrEqSteps` — a scan that stops at the first differing character.
For the secret `abcd`, the equal-length presented tokens `zbcd` and
`abcz` both compare unequal, yet the scan stops after 1 comparison for
the first and after 4 for the second: the comparison's running time
depends on where the strings first differ, so it is not a constant-time
comparison as the claim requires. -/
theorem token_comparison_short_circuit :
    validate_token "abcd".toList initState "198.51.100.1"
        (some "Bearer zbcd".toList) 0
      = (invalidTokenResponse, update_failed_attempts initState "198.51.100.1" 0)
    ∧ validate_token "abcd".toList initState "198.51.100.1"
        (some "Bearer abcz".toList) 0
      = (invalidTokenResponse, update_failed_attempts initState "198.51.100.1" 0)
    ∧ "zbcd".toList.length = "abcd".toList.length
    ∧ "abcz".toList.length = "abcd".toList.length
    ∧ pyStrEq "zbcd".toList "abcd".toList = false
    ∧ pyStrEq "abcz".toList "abcd".toList = false
    ∧ pyStrEqSteps "zbcd".toList "abcd".toList = 1
    ∧ pyStrEqSteps "abcz".toList "abcd".toList = 4 :=
  ⟨rfl, rfl, rfl, rfl, rfl, rfl, rfl, rfl⟩

theorem validate_token_some_eq (valid_token : PyStr) (s : AuthState)
    (ip : String) (auth : PyStr) (now : Int) (tok : PyStr)
    (hne : auth ≠ [])
    (hpre : "Bearer ".toList.isPrefixOf auth = true)
    (hget : (pySplit ' ' auth).get? 1 = some tok) :
    validate_token valid_token s ip (some auth) now
      = (if pyStrEq tok valid_token = false
         then (invalidTokenResponse, update_failed_attempts s ip now)
         else (validResponse, reset_failed_attempts s ip)) := by
  simp only [validate_token, hget, hpre, if_neg hne]
  simp

/-- Claim C10: for every `Authorization` value that starts with
`Bearer `, splitting on single spaces and taking index 1 never fails
(at least two segments exist); the token compared is only the first
space-delimited segment after `Bearer`, so `Bearer <secret> trailing`
authenticates successfully; and a header with two spaces after `Bearer`
compares the empty string (failing for the nonempty secret). -/
theorem bearer_token_extraction (valid_token x auth : PyStr) (s : AuthState)
    (ip : String) (now : Int)
    (hpre : "Bearer ".toList.isPrefixOf auth = true)
    (hns : ' ' ∉ valid_token) (hne : valid_token ≠ []) :
    2 ≤ (pySplit ' ' auth).length
    ∧ (pySplit ' ' auth).get? 1 ≠ none
    ∧ validate_token valid_token s ip
        (some ("Bearer ".toList ++ valid_token ++ ' ' :: "trailing".toList)) now
        = (validResponse, reset_failed_attempts s ip)
    ∧ (pySplit ' ' ("Bearer ".toList ++ ' ' :: x)).get? 1 = some []
    ∧ validate_token valid_token s ip (some ("Bearer ".toList ++ ' ' :: x)) now
        = (invalidTokenResponse, update_failed_attempts s ip now) := by
  have hBnospace : ' ' ∉ "Bearer".toList := by decide
  obtain ⟨t, ht⟩ := isPrefixOf_exists hpre
  have hsplit : pySplit ' ' auth = "Bearer".toList :: pySplit ' ' t := by
    rw [ht]
    exact pySplit_append ' ' "Bearer".toList t hBnospace
  have hlen : 2 ≤ (pySplit ' ' auth).length := by
    rw [hsplit, List.length_cons]
    exact Nat.succ_le_succ (List.length_pos.mpr (pySplit_ne_nil ' ' t))
  have hsome : (pySplit ' ' auth).get? 1 ≠ none := by
    rw [hsplit]
    cases hpt : pySplit ' ' t with
    | nil => exact absurd hpt (pySplit_ne_nil ' ' t)
    | cons a l => simp
  have hsplit3 : pySplit ' ' ("Bearer ".toList ++ valid_token ++ ' ' :: "trailing".toList)
      = "Bearer".toList :: valid_token :: pySplit ' ' "trailing".toList := by
    have h1 := pySplit_append ' ' "Bearer".toList
      (valid_token ++ ' ' :: "trailing".toList) hBnospace
    have h2 := pySplit_append ' ' valid_token "trailing".toList hns
    rw [h2] at h1
    exact h1
  have hsucc : validate_token valid_token s ip
      (some ("Bearer ".toList ++ valid_token ++ ' ' :: "trailing".toList)) now
      = (validResponse, reset_failed_attempts s ip) := by
    rw [validate_token_some_eq valid_token s ip
      ("Bearer ".toList ++ valid_token ++ ' ' :: "trailing".toList) now valid_token
      (by simp) (isPrefixOf_self_append _ _) (by rw [hsplit3]; rfl)]
    rw [(pyStrEq_iff valid_token valid_token).mpr rfl]
    simp
  have hsplit5 : pySplit ' ' ("Bearer ".toList ++ ' ' :: x)
      = "Bearer".toList :: [] :: pySplit ' ' x := by
    have h1 := pySplit_append ' ' "Bearer".toList (' ' :: x) hBnospace
    have h2 : pySplit ' ' (' ' :: x) = [] :: pySplit ' ' x := by
      simp [pySplit]
    rw [h2] at h1
    exact h1
  have hempty : pyStrEq [] valid_token = false := by
    cases valid_token with
    | nil => exact absurd rfl hne
    | cons a l => rfl
  have hfail : validate_token valid_token s ip
      (some ("Bearer ".toList ++ ' ' :: x)) now
      = (invalidTokenResponse, update_failed_attempts s ip now) := by
    rw [validate_token_some_eq valid_token s ip
      ("Bearer ".toList ++ ' ' :: x) now []
      (by simp) (isPrefixOf_self_append _ _) (by rw [hsplit5]; rfl)]
    rw [hempty]
    simp
  exact ⟨hlen, hsome, hsucc, by rw [hsplit5]; rfl, hfail⟩

/-- Witness for C10: the secret `secret`, the header `Bearer tok`, and
the two-space suffix `y`, at the empty state. -/
theorem bearer_token_extraction_witness :
    "Bearer ".toList.isPrefixOf "Bearer tok".toList = true
    ∧ (2 ≤ (pySplit ' ' "Bearer tok".toList).length
       ∧ (pySplit ' ' "Bearer tok".toList).get? 1 ≠ none
       ∧ validate_token "secret".toList initState "192.0.2.1"
           (some ("Bearer ".toList ++ "secret".toList ++ ' ' :: "trailing".toList)) 0
           = (validResponse, reset_failed_attempts initState "192.0.2.1")
       ∧ (pySplit ' ' ("Bearer ".toList ++ ' ' :: "y".toList)).get? 1 = some []
       ∧ validate_token "secret".toList initState "192.0.2.1"
           (some ("Bearer ".toList ++ ' ' :: "y".toList)) 0
           = (invalidTokenResponse, update_failed_attempts initState "192.0.2.1" 0)) :=
  ⟨by decide,
   bearer_token_extraction "secret".toList "y".toList "Bearer tok".toList
     initState "192.0.2.1" 0 (by decide) (by decide) (by decide)⟩

end XpuTgi
